import Mathlib

/-!
Shallow embedding of the `ndious/delivr` command-execution utility.

Go strings are modelled as lists of characters (`GoStr`); Go's byte-level
`len`/slicing coincides with the character level on the ASCII data these
claims are about.  Effectful code (notification sends, subprocess spawning,
log writes) is modelled by explicit state passing over a `World` record,
with the outcomes of the external world (notification delivery, subprocess
results, the current date/timestamp) supplied as parameters.
-/

set_option maxRecDepth 100000

namespace Delivr

/-- Go strings, modelled as lists of characters. -/
abbrev GoStr := List Char

/-! ## Discord client (src/unnamed/part_001, webhook-only variant) -/

/-- The required webhook URL start, from `NewClient`. -/
def webhookURLStart : GoStr := "https://discord.com/api/webhooks/".toList

/-- `discord.Client`: holds the webhook URL. -/
structure Client where
  webhookURL : GoStr
deriving DecidableEq

/-- `discord.NewClient` (src/unnamed/part_001 lines 42-57): rejects an empty
URL, rejects a URL that does not start with the webhook URL start, and
otherwise returns a client holding the URL. -/
def NewClient (webhookURL : GoStr) : Except GoStr Client :=
  if webhookURL = [] then
    Except.error "discord webhook URL is required".toList
  else if !(webhookURLStart.isPrefixOf webhookURL) then
    Except.error "invalid webhook URL format, must start with https://discord.com/api/webhooks/".toList
  else
    Except.ok { webhookURL := webhookURL }

/-! ## Logger (src/internal/logger/logger.go) -/

/-- `config.LogConfig` (src/internal/config/config.go lines 144-150). -/
structure LogConfig where
  directory : GoStr
  maxSize : Int
  maxAge : Int
  maxBackups : Int
  compress : Bool
deriving DecidableEq

/-- The defaulting performed by `logger.NewCommandLogger`
(src/internal/logger/logger.go lines 24-44): an empty directory becomes
`<home>/.delivr/logs` (modelling `filepath.Join(homeDir, ".delivr", "logs")`
as concatenation with `/` separators), a zero maxSize becomes 10, a zero
maxAge becomes 30, a zero maxBackups becomes 5.  The `Compress` field is
not touched by the source. -/
def applyLogDefaults (homeDir : GoStr) (cfg : LogConfig) : LogConfig :=
  let cfg := if cfg.directory = [] then
    { cfg with directory := homeDir ++ "/.delivr/logs".toList } else cfg
  let cfg := if cfg.maxSize = 0 then { cfg with maxSize := 10 } else cfg
  let cfg := if cfg.maxAge = 0 then { cfg with maxAge := 30 } else cfg
  let cfg := if cfg.maxBackups = 0 then { cfg with maxBackups := 5 } else cfg
  cfg

/-- The action of `strings.ReplaceAll(s, string(pat), "-")` on one character. -/
def replChar (pat c : Char) : Char :=
  if c = pat then '-' else c

/-- `strings.ReplaceAll(s, string(pat), "-")` for a one-character pattern:
a per-character map. -/
def replaceAllWithDash (pat : Char) (s : GoStr) : GoStr :=
  s.map (replChar pat)

/-- `logger.sanitizeFilename` (src/internal/logger/logger.go lines 98-111):
lowercase, then replace each of `space / \ : * ? " < > |` by `-`.
`strings.ToLower` applies Unicode's per-rune simple lower-case mapping,
which lives in Go's standard library outside this repository; its
per-character action is the parameter `low`, constrained where needed by
the documented properties of that mapping. -/
def sanitizeFilename (low : Char → Char) (name : GoStr) : GoStr :=
  let name := name.map low
  let name := replaceAllWithDash ' ' name
  let name := replaceAllWithDash '/' name
  let name := replaceAllWithDash '\\' name
  let name := replaceAllWithDash ':' name
  let name := replaceAllWithDash '*' name
  let name := replaceAllWithDash '?' name
  let name := replaceAllWithDash '"' name
  let name := replaceAllWithDash '<' name
  let name := replaceAllWithDash '>' name
  let name := replaceAllWithDash '|' name
  name

/-- The replacement chain of `sanitizeFilename`, acting on one character:
each of the ten special characters becomes `-`, applied in source order. -/
def dashIfBad (c : Char) : Char :=
  replChar '|' (replChar '>' (replChar '<' (replChar '"' (replChar '?'
    (replChar '*' (replChar ':' (replChar '\\' (replChar '/' (replChar ' ' c)))))))))

/-- The per-character action of `sanitizeFilename`: lowercase via the rune
mapping `low`, then replace the special characters with `-`. -/
def sanitizeChar (low : Char → Char) (c : Char) : Char :=
  dashIfBad (low c)

/-- The characters replaced by `sanitizeFilename`. -/
def badFilenameChars : GoStr := [' ', '/', '\\', ':', '*', '?', '"', '<', '>', '|']

/-- A finite sample of Unicode's simple lower-case mapping — the 26 ASCII
letters plus the non-ASCII letter `É` — used to instantiate witnesses.
(The program's `strings.ToLower` agrees with this sample on these
characters and is modelled abstractly by the `low` parameter elsewhere.) -/
def sampleLower (c : Char) : Char :=
  if c = 'A' then 'a' else if c = 'B' then 'b' else if c = 'C' then 'c' else
  if c = 'D' then 'd' else if c = 'E' then 'e' else if c = 'F' then 'f' else
  if c = 'G' then 'g' else if c = 'H' then 'h' else if c = 'I' then 'i' else
  if c = 'J' then 'j' else if c = 'K' then 'k' else if c = 'L' then 'l' else
  if c = 'M' then 'm' else if c = 'N' then 'n' else if c = 'O' then 'o' else
  if c = 'P' then 'p' else if c = 'Q' then 'q' else if c = 'R' then 'r' else
  if c = 'S' then 's' else if c = 'T' then 't' else if c = 'U' then 'u' else
  if c = 'V' then 'v' else if c = 'W' then 'w' else if c = 'X' then 'x' else
  if c = 'Y' then 'y' else if c = 'Z' then 'z' else
  if c = 'É' then 'é' else c

/-- The upper-case characters of the sample mapping. -/
def sampleUppers : GoStr :=
  ['A', 'B', 'C', 'D', 'E', 'F', 'G', 'H', 'I', 'J', 'K', 'L', 'M',
   'N', 'O', 'P', 'Q', 'R', 'S', 'T', 'U', 'V', 'W', 'X', 'Y', 'Z', 'É']

/-- The lower-case images of the sample mapping. -/
def sampleLowers : GoStr :=
  ['a', 'b', 'c', 'd', 'e', 'f', 'g', 'h', 'i', 'j', 'k', 'l', 'm',
   'n', 'o', 'p', 'q', 'r', 's', 't', 'u', 'v', 'w', 'x', 'y', 'z', 'é']

theorem dashIfBad_of_bad : ∀ c ∈ badFilenameChars, dashIfBad c = '-' := by
  decide

theorem dashIfBad_of_good (c : Char) (h : c ∉ badFilenameChars) : dashIfBad c = c := by
  simp only [badFilenameChars, List.mem_cons, List.not_mem_nil, or_false, not_or] at h
  obtain ⟨hsp, hsl, hbs, hco, hst, hqm, hdq, hlt, hgt, hpi⟩ := h
  unfold dashIfBad replChar
  rw [if_neg hsp, if_neg hsl, if_neg hbs, if_neg hco, if_neg hst,
    if_neg hqm, if_neg hdq, if_neg hlt, if_neg hgt, if_neg hpi]

theorem dashIfBad_ne_sep (d : Char) : dashIfBad d ≠ '/' ∧ dashIfBad d ≠ '\\' := by
  by_cases hb : d ∈ badFilenameChars
  · rw [dashIfBad_of_bad d hb]
    exact ⟨by decide, by decide⟩
  · rw [dashIfBad_of_good d hb]
    constructor
    · intro hc; exact hb (hc ▸ (by decide))
    · intro hc; exact hb (hc ▸ (by decide))

theorem sanitizeChar_ne_sep (low : Char → Char) (c : Char) :
    sanitizeChar low c ≠ '/' ∧ sanitizeChar low c ≠ '\\' :=
  dashIfBad_ne_sep (low c)

theorem sanitizeChar_of_bad (low : Char → Char)
    (h3 : ∀ c ∈ badFilenameChars, low c = c) (c : Char) (hc : c ∈ badFilenameChars) :
    sanitizeChar low c = '-' := by
  unfold sanitizeChar
  rw [h3 c hc]
  exact dashIfBad_of_bad c hc

theorem sanitizeChar_eq_low (low : Char → Char)
    (h2 : ∀ c, low c ∈ badFilenameChars → c ∈ badFilenameChars)
    (c : Char) (hc : c ∉ badFilenameChars) : sanitizeChar low c = low c := by
  unfold sanitizeChar
  exact dashIfBad_of_good (low c) (fun hm => hc (h2 c hm))

theorem sanitizeChar_idem (low : Char → Char)
    (h1 : ∀ c, low (low c) = low c)
    (h2 : ∀ c, low c ∈ badFilenameChars → c ∈ badFilenameChars)
    (h3 : ∀ c ∈ badFilenameChars, low c = c)
    (h4 : low '-' = '-') (c : Char) :
    sanitizeChar low (sanitizeChar low c) = sanitizeChar low c := by
  by_cases hb : c ∈ badFilenameChars
  · rw [sanitizeChar_of_bad low h3 c hb]
    unfold sanitizeChar
    rw [h4]
    exact dashIfBad_of_good '-' (by decide)
  · rw [sanitizeChar_eq_low low h2 c hb]
    have hlb : low c ∉ badFilenameChars := fun hm => hb (h2 c hm)
    rw [sanitizeChar_eq_low low h2 (low c) hlb, h1 c]

theorem sanitizeFilename_eq_map (low : Char → Char) (s : GoStr) :
    sanitizeFilename low s = s.map (sanitizeChar low) := by
  simp only [sanitizeFilename, replaceAllWithDash, List.map_map]
  refine List.map_congr_left (fun c _ => ?_)
  simp only [Function.comp_apply, sanitizeChar, dashIfBad]

theorem sanitizeFilename_idem (low : Char → Char)
    (h1 : ∀ c, low (low c) = low c)
    (h2 : ∀ c, low c ∈ badFilenameChars → c ∈ badFilenameChars)
    (h3 : ∀ c ∈ badFilenameChars, low c = c)
    (h4 : low '-' = '-') (s : GoStr) :
    sanitizeFilename low (sanitizeFilename low s) = sanitizeFilename low s := by
  rw [sanitizeFilename_eq_map low s, sanitizeFilename_eq_map low (s.map (sanitizeChar low))]
  induction s with
  | nil => rfl
  | cons c t ih =>
    simp only [List.map_cons]
    rw [sanitizeChar_idem low h1 h2 h3 h4 c]
    exact congrArg (List.cons (sanitizeChar low c)) ih

theorem sampleLower_eq_self (c : Char) (h : c ∉ sampleUppers) : sampleLower c = c := by
  simp only [sampleUppers, List.mem_cons, List.not_mem_nil, or_false, not_or] at h
  obtain ⟨hA, hB, hC, hD, hE, hF, hG, hH, hI, hJ, hK, hL, hM,
    hN, hO, hP, hQ, hR, hS, hT, hU, hV, hW, hX, hY, hZ, hEA⟩ := h
  unfold sampleLower
  rw [if_neg hA, if_neg hB, if_neg hC, if_neg hD, if_neg hE, if_neg hF,
    if_neg hG, if_neg hH, if_neg hI, if_neg hJ, if_neg hK, if_neg hL,
    if_neg hM, if_neg hN, if_neg hO, if_neg hP, if_neg hQ, if_neg hR,
    if_neg hS, if_neg hT, if_neg hU, if_neg hV, if_neg hW, if_neg hX,
    if_neg hY, if_neg hZ, if_neg hEA]

theorem sampleLower_mem_lowers : ∀ c ∈ sampleUppers, sampleLower c ∈ sampleLowers := by
  decide

theorem sampleLowers_not_bad : ∀ c ∈ sampleLowers, c ∉ badFilenameChars := by
  decide

theorem sampleLowers_not_upper : ∀ c ∈ sampleLowers, c ∉ sampleUppers := by
  decide

theorem bad_not_sampleUpper : ∀ c ∈ badFilenameChars, c ∉ sampleUppers := by
  decide

theorem sampleLower_idem (c : Char) : sampleLower (sampleLower c) = sampleLower c := by
  by_cases hu : c ∈ sampleUppers
  · exact sampleLower_eq_self _ (sampleLowers_not_upper _ (sampleLower_mem_lowers c hu))
  · simp only [sampleLower_eq_self c hu]

theorem sampleLower_not_into_bad :
    ∀ c, sampleLower c ∈ badFilenameChars → c ∈ badFilenameChars := by
  intro c hm
  by_cases hu : c ∈ sampleUppers
  · exact absurd hm (sampleLowers_not_bad _ (sampleLower_mem_lowers c hu))
  · rw [sampleLower_eq_self c hu] at hm
    exact hm

theorem sampleLower_fixes_bad : ∀ c ∈ badFilenameChars, sampleLower c = c :=
  fun c hc => sampleLower_eq_self c (bad_not_sampleUpper c hc)

theorem sampleLower_dash : sampleLower '-' = '-' := by
  decide

/-! ## Command runner (src/internal/discord/client.go, package `command`)

The runner's effects — notification sends, spawning the subprocess, writing
to the per-command log — are modelled by explicit state passing over a
`World` record.  The outcomes supplied by the outside world (whether each
notification send succeeds, the subprocess result and captured output, the
formatted duration and timestamp) are parameters (`CmdBehavior`), keyed by
command name for the loops. -/

/-- `config.Command` (src/internal/config/config.go lines 153-160). -/
structure Command where
  name : GoStr
  description : GoStr
  command : GoStr
  args : List GoStr
  dir : GoStr
  envVars : List GoStr
deriving DecidableEq

/-- Outside-world outcomes for one `Execute` call: error returned by the
start-notification send (`none` = delivered), the subprocess error
(`none` = exit success), the captured stdout/stderr, the error returned by
the result-notification send, whether the entry-point's extra error
notification is delivered, and the formatted duration and timestamp. -/
structure CmdBehavior where
  startNotifyErr : Option GoStr
  runErr : Option GoStr
  stdoutData : GoStr
  stderrData : GoStr
  resultNotifyErr : Option GoStr
  errNotifyOk : Bool
  durationStr : GoStr
  nowStr : GoStr
deriving DecidableEq

/-- `command.Runner` (client.go lines 170-175): global working directory and
Docker host override (the notifier and logger are modelled by `World`). -/
structure Runner where
  workingDir : GoStr
  dockerHost : GoStr
deriving DecidableEq

/-- Ambient process context: `os.Environ()`, today's date string
(`time.Now().Format("2006-01-02")`), the logger's base directory, and the
per-rune action of `strings.ToLower` used by the logger's filename
sanitization (Unicode simple case mapping, external to this repository). -/
structure ExecCtx where
  osEnviron : List GoStr
  today : GoStr
  logDir : GoStr
  low : Char → Char

/-- A spawned subprocess: program, arguments, working directory (`[]` =
inherit the current directory), and environment (`none` = inherit the
process environment, i.e. `exec.Cmd.Env` left nil). -/
structure Spawn where
  prog : GoStr
  args : List GoStr
  dir : GoStr
  env : Option (List GoStr)
deriving DecidableEq

/-- Observable effects: notifications delivered to the webhook in order,
subprocesses spawned in order, and chunks appended to log files in order
(each entry is a log file path with the appended text). -/
structure World where
  sent : List GoStr
  spawned : List Spawn
  logs : List (GoStr × GoStr)
deriving DecidableEq

/-- The separator line written before each log block (client.go): two
newlines, fifty `=` characters, one newline. -/
def sepLine : GoStr := "\n\n".toList ++ List.replicate 50 '=' ++ "\n".toList

/-- The separator line closing each log block (client.go): fifty `=`
characters followed by two newlines. -/
def sepLineEnd : GoStr := List.replicate 50 '=' ++ "\n\n".toList

/-- The metadata header written to the log before execution
(client.go lines 231-237). -/
def logHeader (cmd : Command) (dir now : GoStr) : GoStr :=
  sepLine ++ "Command: ".toList ++ cmd.name ++ "\n".toList
    ++ "Description: ".toList ++ cmd.description ++ "\n".toList
    ++ "Executed at: ".toList ++ now ++ "\n".toList
    ++ "Working Directory: ".toList ++ dir ++ "\n".toList
    ++ "Full Command: ".toList ++ cmd.command ++ " ".toList
    ++ (List.intercalate " ".toList cmd.args) ++ "\n".toList
    ++ sepLineEnd

/-- The completion footer appended to the log (client.go lines 247-255),
a function of the subprocess error alone. -/
def logFooter : Option GoStr → GoStr
  | some e => sepLine ++ "Command failed with error: ".toList ++ e ++ "\n".toList ++ sepLineEnd
  | none => sepLine ++ "Command completed successfully\n".toList ++ sepLineEnd

/-- The output truncation of client.go lines 268-269 and 280-281: text
longer than 1500 characters is cut to its first 1500 characters with the
fixed marker appended. -/
def truncateOutput (s : GoStr) : GoStr :=
  if 1500 < s.length then s.take 1500 ++ "... (truncated)".toList else s

/-- `fmt.Sprintf("%s-%s.log", safeCommandName, today)` with the sanitized
command name (logger.go lines 69 and 87); `low` is the rune mapping of
`strings.ToLower`. -/
def logFileName (low : Char → Char) (today name : GoStr) : GoStr :=
  sanitizeFilename low name ++ "-".toList ++ today ++ ".log".toList

/-- `logger.GetLogPath` (logger.go lines 84-88); `filepath.Join` of the
base directory with the file name is modelled as `/`-concatenation. -/
def GetLogPath (low : Char → Char) (baseDir today name : GoStr) : GoStr :=
  baseDir ++ "/".toList ++ logFileName low today name

/-- The path opened by `logger.GetLogWriter` for an uncached name
(logger.go lines 68-69): the same computation as `GetLogPath`.  (The writer
is then cached by sanitized name.) -/
def GetLogWriterPath (low : Char → Char) (baseDir today name : GoStr) : GoStr :=
  baseDir ++ "/".toList ++ logFileName low today name

/-- The code-block fence opening the captured output in the result message. -/
def codeBlockOpen : GoStr := "```\n".toList

/-- The code-block fence closing the captured output in the result message. -/
def codeBlockClose : GoStr := "\n```".toList

/-- The "starting" notification content (client.go line 192). -/
def startMsg (cmd : Command) : GoStr :=
  "🏃 Running command: **".toList ++ cmd.name ++ "**\n> ".toList ++ cmd.description

/-- The result notification content (client.go lines 262-289): failure or
success header with duration, the (possibly truncated) captured stderr in a
code block on failure — else the bare error — or the captured stdout on
success if nonempty, then the log file path. -/
def buildResultMsg (cmd : Command) (b : CmdBehavior) (logPath : GoStr) : GoStr :=
  (match b.runErr with
   | some e =>
     "❌ Command **".toList ++ cmd.name ++ "** failed (took ".toList
       ++ b.durationStr ++ ")\n".toList
       ++ (if 0 < b.stderrData.length then
             codeBlockOpen ++ truncateOutput b.stderrData ++ codeBlockClose
           else "Error: ".toList ++ e)
   | none =>
     "✅ Command **".toList ++ cmd.name ++ "** completed successfully (took ".toList
       ++ b.durationStr ++ ")\n".toList
       ++ (if 0 < b.stdoutData.length then
             codeBlockOpen ++ truncateOutput b.stdoutData ++ codeBlockClose
           else []))
  ++ "\n📄 Log file: `".toList ++ logPath ++ "`".toList

/-- The environment handed to the subprocess (client.go lines 200-220):
the Docker-host injection at lines 201-205 is overwritten by the
env-var replacement at lines 218-220 when `EnvVars` is nonempty.
`none` = `exec.Cmd.Env` left nil, the inherited environment. -/
def computeSpawnEnv (r : Runner) (osEnv : List GoStr) (cmd : Command) : Option (List GoStr) :=
  let e := if r.dockerHost ≠ [] ∧ cmd.command = "docker".toList then
    some (osEnv ++ ["DOCKER_HOST=".toList ++ r.dockerHost]) else none
  if 0 < cmd.envVars.length then some (osEnv ++ cmd.envVars) else e

/-- Working-directory resolution (client.go lines 211-215): command
directory, else global working directory, else `[]` (inherit). -/
def resolveDir (r : Runner) (cmd : Command) : GoStr :=
  if cmd.dir ≠ [] then cmd.dir else if r.workingDir ≠ [] then r.workingDir else []

/-- `Runner.Execute` (client.go lines 188-297) as a state transformer:
send the start notification (aborting on failure), write the log header,
spawn the subprocess, write the captured output and the completion footer
to the log, then send the result notification; returns the subprocess
error unless that final send fails. -/
def Execute (r : Runner) (ctx : ExecCtx) (b : CmdBehavior) (cmd : Command)
    (st : World) : World × Option GoStr :=
  match b.startNotifyErr with
  | some w => (st, some ("failed to send start message: ".toList ++ w))
  | none =>
    let st1 : World := { st with sent := st.sent ++ [startMsg cmd] }
    let dir := resolveDir r cmd
    let spEnv := computeSpawnEnv r ctx.osEnviron cmd
    let logPath := GetLogPath ctx.low ctx.logDir ctx.today cmd.name
    let st2 : World := { st1 with logs := st1.logs ++ [(logPath, logHeader cmd dir b.nowStr)] }
    let st3 : World := { st2 with spawned := st2.spawned ++ [⟨cmd.command, cmd.args, dir, spEnv⟩] }
    let st4 : World := { st3 with logs := st3.logs ++ [(logPath, b.stdoutData ++ b.stderrData)] }
    let st5 : World := { st4 with logs := st4.logs ++ [(logPath, logFooter b.runErr)] }
    match b.resultNotifyErr with
    | some w => (st5, some ("failed to send result message: ".toList ++ w))
    | none => ({ st5 with sent := st5.sent ++ [buildResultMsg cmd b logPath] }, b.runErr)

/-- `Runner.ExecuteAll` (client.go lines 300-308): run the commands in list
order, stopping at and wrapping the first error. -/
def ExecuteAll (r : Runner) (ctx : ExecCtx) (eb : GoStr → CmdBehavior) :
    List Command → World → World × Option GoStr
  | [], st => (st, none)
  | cmd :: rest, st =>
    match Execute r ctx (eb cmd.name) cmd st with
    | (st', some e) =>
      (st', some ("command '".toList ++ cmd.name ++ "' failed: ".toList ++ e))
    | (st', none) => ExecuteAll r ctx eb rest st'

/-- One iteration of the entry point's command loop (src/main.go lines
73-80): run the command; on error, additionally send an error notification
(whose own failure is only logged). -/
def mainStep (r : Runner) (ctx : ExecCtx) (eb : GoStr → CmdBehavior)
    (cmd : Command) (st : World) : World :=
  match Execute r ctx (eb cmd.name) cmd st with
  | (st', none) => st'
  | (st', some e) =>
    if (eb cmd.name).errNotifyOk then
      { st' with sent := st'.sent ++
        ["❌ Error executing command '".toList ++ cmd.name ++ "': ".toList ++ e] }
    else st'

/-- The entry point's command loop (src/main.go lines 73-80): every command
is run, regardless of earlier failures. -/
def mainLoop (r : Runner) (ctx : ExecCtx) (eb : GoStr → CmdBehavior) :
    List Command → World → World
  | [], st => st
  | cmd :: rest, st => mainLoop r ctx eb rest (mainStep r ctx eb cmd st)

/-! ## Structural lemmas about `Execute` -/

theorem Execute_spawned (r : Runner) (ctx : ExecCtx) (b : CmdBehavior) (cmd : Command)
    (st : World) (hs : b.startNotifyErr = none) :
    (Execute r ctx b cmd st).1.spawned =
      st.spawned ++ [⟨cmd.command, cmd.args, resolveDir r cmd,
        computeSpawnEnv r ctx.osEnviron cmd⟩] := by
  unfold Execute
  rw [hs]
  cases hre : b.resultNotifyErr <;> rfl

theorem Execute_logs (r : Runner) (ctx : ExecCtx) (b : CmdBehavior) (cmd : Command)
    (st : World) (hs : b.startNotifyErr = none) :
    (Execute r ctx b cmd st).1.logs = st.logs ++
      [(GetLogPath ctx.low ctx.logDir ctx.today cmd.name, logHeader cmd (resolveDir r cmd) b.nowStr),
       (GetLogPath ctx.low ctx.logDir ctx.today cmd.name, b.stdoutData ++ b.stderrData),
       (GetLogPath ctx.low ctx.logDir ctx.today cmd.name, logFooter b.runErr)] := by
  unfold Execute
  rw [hs]
  cases hre : b.resultNotifyErr <;> simp [List.append_assoc, List.cons_append]

theorem Execute_ret_ok (r : Runner) (ctx : ExecCtx) (b : CmdBehavior) (cmd : Command)
    (st : World) (hs : b.startNotifyErr = none) (hr : b.resultNotifyErr = none) :
    (Execute r ctx b cmd st).2 = b.runErr := by
  unfold Execute
  rw [hs, hr]

theorem Execute_ret_notifyFail (r : Runner) (ctx : ExecCtx) (b : CmdBehavior) (cmd : Command)
    (st : World) (w : GoStr) (hs : b.startNotifyErr = none) (hr : b.resultNotifyErr = some w) :
    (Execute r ctx b cmd st).2 = some ("failed to send result message: ".toList ++ w) := by
  unfold Execute
  rw [hs, hr]

theorem computeSpawnEnv_noVars (r : Runner) (osEnv : List GoStr) (cmd : Command)
    (hd : r.dockerHost ≠ []) (hc : cmd.command = "docker".toList) (he : cmd.envVars = []) :
    computeSpawnEnv r osEnv cmd = some (osEnv ++ ["DOCKER_HOST=".toList ++ r.dockerHost]) := by
  unfold computeSpawnEnv
  rw [he]
  rw [if_neg (by decide), if_pos ⟨hd, hc⟩]

theorem computeSpawnEnv_withVars (r : Runner) (osEnv : List GoStr) (cmd : Command)
    (hv : 0 < cmd.envVars.length) :
    computeSpawnEnv r osEnv cmd = some (osEnv ++ cmd.envVars) := by
  unfold computeSpawnEnv
  rw [if_pos hv]

theorem logFooter_some_ne_none (e : GoStr) : logFooter (some e) ≠ logFooter none := by
  intro h
  have h2 : (logFooter (some e))[61]? = (logFooter none)[61]? := by rw [h]
  have h3 : logFooter (some e) =
      (sepLine ++ "Command failed with error: ".toList) ++ (e ++ ("\n".toList ++ sepLineEnd)) := by
    simp [logFooter, List.append_assoc]
  rw [h3, List.getElem?_append_left (by decide)] at h2
  exact absurd h2 (by decide)

theorem sanitizeFilename_no_sep (low : Char → Char) (name : GoStr) :
    '/' ∉ sanitizeFilename low name ∧ '\\' ∉ sanitizeFilename low name := by
  rw [sanitizeFilename_eq_map]
  constructor
  · intro h
    obtain ⟨c, _, hc⟩ := List.mem_map.mp h
    exact (sanitizeChar_ne_sep low c).1 hc
  · intro h
    obtain ⟨c, _, hc⟩ := List.mem_map.mp h
    exact (sanitizeChar_ne_sep low c).2 hc

/-! ## Concrete fixtures used by the witnesses -/

/-- A docker command with no extra environment variables. -/
def exCmd : Command :=
  ⟨"Deploy App".toList, "ship it".toList, "docker".toList, ["ps".toList], [], []⟩

/-- A docker command that also specifies extra environment variables. -/
def dockerEnvCmd : Command :=
  ⟨"Docker PS".toList, "d".toList, "docker".toList, [], [], ["FOO=1".toList]⟩

/-- A runner with a Docker host override configured. -/
def exRunner : Runner := ⟨[], "tcp://dh:2375".toList⟩

/-- A concrete process context, using the sample lower-case mapping. -/
def exCtx : ExecCtx :=
  ⟨["PATH=/bin".toList], "2025-01-02".toList, "/var/logs".toList, sampleLower⟩

/-- The world with no effects yet. -/
def emptyWorld : World := ⟨[], [], []⟩

/-- Behavior: everything succeeds. -/
def bRunOk : CmdBehavior :=
  ⟨none, none, "out".toList, [], none, true, "0.10 seconds".toList, "ts".toList⟩

/-- Behavior: the subprocess fails, notifications are delivered. -/
def bRunFail : CmdBehavior :=
  ⟨none, some "exit status 1".toList, [], "boom".toList, none, true,
   "0.10 seconds".toList, "ts".toList⟩

/-- Behavior: the start notification fails. -/
def bStartFail : CmdBehavior :=
  ⟨some "down".toList, none, [], [], none, true, "0.10 seconds".toList, "ts".toList⟩

/-- Behavior: the subprocess succeeds but the result notification fails. -/
def bNotifyFail : CmdBehavior :=
  ⟨none, none, "out".toList, [], some "503".toList, true, "0.10 seconds".toList, "ts".toList⟩

/-- The world after running `exCmd` under `bRunFail`. -/
def w1 : World := (Execute exRunner exCtx bRunFail exCmd emptyWorld).1

/-! ## Claim theorems -/

/-- Claim C7: client construction rejects every webhook URL that does not
start with `https://discord.com/api/webhooks/` (in particular every empty
URL, since the required start is nonempty), and succeeds exactly when the
URL has that prefix. -/
theorem c7_webhook_url_validation (u : GoStr) :
    (NewClient u).toOption.isSome = webhookURLStart.isPrefixOf u := by
  by_cases h0 : u = []
  · subst h0; decide
  · rw [NewClient, if_neg h0]
    cases hp : webhookURLStart.isPrefixOf u
    · rfl
    · rfl

/-- Claim C8: `sanitizeFilename` is idempotent, acts as the per-character
map `sanitizeChar` (hence is deterministic), replaces each of the
characters space `/` `\` `:` `*` `?` `"` `<` `>` `|` with `-`, lowercases
every letter (the rune mapping `low` of `strings.ToLower` applied to every
non-replaced character), and leaves every other character — the fixed
points of the case mapping — unchanged.  The hypotheses are the documented
properties of Unicode's simple lower-case mapping: it is idempotent, it
never maps a character into the replaced punctuation set, and it fixes the
replaced punctuation characters and `-` (none of which is a letter). -/
theorem c8_sanitize_spec (low : Char → Char) (s : GoStr)
    (h1 : ∀ c, low (low c) = low c)
    (h2 : ∀ c, low c ∈ badFilenameChars → c ∈ badFilenameChars)
    (h3 : ∀ c ∈ badFilenameChars, low c = c)
    (h4 : low '-' = '-') :
    sanitizeFilename low (sanitizeFilename low s) = sanitizeFilename low s
    ∧ sanitizeFilename low s = s.map (sanitizeChar low)
    ∧ (∀ c ∈ badFilenameChars, sanitizeChar low c = '-')
    ∧ (∀ c, c ∉ badFilenameChars → sanitizeChar low c = low c)
    ∧ (∀ c, c ∉ badFilenameChars → low c = c → sanitizeChar low c = c) :=
  ⟨sanitizeFilename_idem low h1 h2 h3 h4 s, sanitizeFilename_eq_map low s,
   fun c hc => sanitizeChar_of_bad low h3 c hc,
   fun c hc => sanitizeChar_eq_low low h2 c hc,
   fun c hb he => (sanitizeChar_eq_low low h2 c hb).trans he⟩

/-- Claim C8 witness: instantiated at the sample case mapping (the ASCII
letters and `É`): idempotence on a concrete name containing a non-ASCII
letter, `/` replaced with `-`, `A` lowered to `a`, `É` lowered to `é`,
and `x` left unchanged. -/
theorem c8_sanitize_spec_witness :
    sanitizeFilename sampleLower (sanitizeFilename sampleLower "My Cmd/Év2".toList)
      = sanitizeFilename sampleLower "My Cmd/Év2".toList
    ∧ sanitizeChar sampleLower '/' = '-'
    ∧ sanitizeChar sampleLower 'A' = sampleLower 'A'
    ∧ sanitizeChar sampleLower 'É' = 'é'
    ∧ sanitizeChar sampleLower 'x' = 'x' :=
  ⟨(c8_sanitize_spec sampleLower "My Cmd/Év2".toList sampleLower_idem
      sampleLower_not_into_bad sampleLower_fixes_bad sampleLower_dash).1,
   (c8_sanitize_spec sampleLower [] sampleLower_idem
      sampleLower_not_into_bad sampleLower_fixes_bad sampleLower_dash).2.2.1 '/' (by decide),
   (c8_sanitize_spec sampleLower [] sampleLower_idem
      sampleLower_not_into_bad sampleLower_fixes_bad sampleLower_dash).2.2.2.1 'A' (by decide),
   ((c8_sanitize_spec sampleLower [] sampleLower_idem
      sampleLower_not_into_bad sampleLower_fixes_bad sampleLower_dash).2.2.2.1 'É'
        (by decide)).trans (by decide),
   (c8_sanitize_spec sampleLower [] sampleLower_idem
      sampleLower_not_into_bad sampleLower_fixes_bad sampleLower_dash).2.2.2.2 'x'
        (by decide) (by decide)⟩

theorem applyLogDefaults_eq (homeDir : GoStr) (cfg : LogConfig) :
    applyLogDefaults homeDir cfg =
      { directory := if cfg.directory = [] then homeDir ++ "/.delivr/logs".toList else cfg.directory,
        maxSize := if cfg.maxSize = 0 then 10 else cfg.maxSize,
        maxAge := if cfg.maxAge = 0 then 30 else cfg.maxAge,
        maxBackups := if cfg.maxBackups = 0 then 5 else cfg.maxBackups,
        compress := cfg.compress } := by
  unfold applyLogDefaults
  by_cases h1 : cfg.directory = [] <;> by_cases h2 : cfg.maxSize = 0 <;>
    by_cases h3 : cfg.maxAge = 0 <;> by_cases h4 : cfg.maxBackups = 0 <;>
    simp [h1, h2, h3, h4]

/-- Claim C4 counterexample: constructing the logger from the all-zero
configuration does not enable compression — the `compress` flag stays
`false`, contradicting "compression enabled" among the claimed defaults. -/
theorem c4_compress_not_defaulted :
    (applyLogDefaults "/home/user".toList ⟨[], 0, 0, 0, false⟩).compress ≠ true := by
  decide

/-- Claim C4 (amended): when a logging setting is left at its zero value the
defaults applied are directory `<home>/.delivr/logs`, max size 10 MB,
max age 30 days, 5 backups; the compress flag is never defaulted and keeps
its configured value (so compression is disabled when unspecified). -/
theorem c4_log_defaults (homeDir : GoStr) (cfg : LogConfig) :
    (cfg.directory = [] →
      (applyLogDefaults homeDir cfg).directory = homeDir ++ "/.delivr/logs".toList)
    ∧ (cfg.maxSize = 0 → (applyLogDefaults homeDir cfg).maxSize = 10)
    ∧ (cfg.maxAge = 0 → (applyLogDefaults homeDir cfg).maxAge = 30)
    ∧ (cfg.maxBackups = 0 → (applyLogDefaults homeDir cfg).maxBackups = 5)
    ∧ (applyLogDefaults homeDir cfg).compress = cfg.compress := by
  refine ⟨fun h => ?_, fun h => ?_, fun h => ?_, fun h => ?_, ?_⟩ <;>
    simp [applyLogDefaults_eq, *]

/-- Claim C4 witness: the amended defaults at the all-zero configuration. -/
theorem c4_log_defaults_witness :
    (applyLogDefaults "/h".toList ⟨[], 0, 0, 0, false⟩).directory = "/h".toList ++ "/.delivr/logs".toList
    ∧ (applyLogDefaults "/h".toList ⟨[], 0, 0, 0, false⟩).maxSize = 10
    ∧ (applyLogDefaults "/h".toList ⟨[], 0, 0, 0, false⟩).maxAge = 30
    ∧ (applyLogDefaults "/h".toList ⟨[], 0, 0, 0, false⟩).maxBackups = 5
    ∧ (applyLogDefaults "/h".toList ⟨[], 0, 0, 0, false⟩).compress = false :=
  ⟨(c4_log_defaults "/h".toList ⟨[], 0, 0, 0, false⟩).1 (by decide),
   (c4_log_defaults "/h".toList ⟨[], 0, 0, 0, false⟩).2.1 (by decide),
   (c4_log_defaults "/h".toList ⟨[], 0, 0, 0, false⟩).2.2.1 (by decide),
   (c4_log_defaults "/h".toList ⟨[], 0, 0, 0, false⟩).2.2.2.1 (by decide),
   (c4_log_defaults "/h".toList ⟨[], 0, 0, 0, false⟩).2.2.2.2⟩

/-- Claim C1: captured output longer than 1500 characters appears in the
result notification as exactly its first 1500 characters followed by the
fixed suffix "... (truncated)" (which carries the "(truncated)" marker);
output of 1500 characters or shorter appears unmodified.  The notification
embeds the truncated stderr on failure (when nonempty) and the truncated
stdout on success (when nonempty). -/
theorem c1_truncation (s : GoStr) (cmd : Command) (b : CmdBehavior) (lp : GoStr) :
    (1500 < s.length → truncateOutput s = s.take 1500 ++ "... (truncated)".toList)
    ∧ (s.length ≤ 1500 → truncateOutput s = s)
    ∧ (∀ e, b.runErr = some e → 0 < b.stderrData.length →
        buildResultMsg cmd b lp =
          "❌ Command **".toList ++ cmd.name ++ "** failed (took ".toList
            ++ b.durationStr ++ ")\n".toList
            ++ codeBlockOpen ++ truncateOutput b.stderrData ++ codeBlockClose
            ++ "\n📄 Log file: `".toList ++ lp ++ "`".toList)
    ∧ (b.runErr = none → 0 < b.stdoutData.length →
        buildResultMsg cmd b lp =
          "✅ Command **".toList ++ cmd.name ++ "** completed successfully (took ".toList
            ++ b.durationStr ++ ")\n".toList
            ++ codeBlockOpen ++ truncateOutput b.stdoutData ++ codeBlockClose
            ++ "\n📄 Log file: `".toList ++ lp ++ "`".toList) := by
  refine ⟨fun h => ?_, fun h => ?_, fun e he hnz => ?_, fun he hnz => ?_⟩
  · unfold truncateOutput
    rw [if_pos h]
  · unfold truncateOutput
    rw [if_neg (Nat.not_lt.mpr h)]
  · unfold buildResultMsg
    rw [he]
    simp [if_pos hnz, List.append_assoc]
  · unfold buildResultMsg
    rw [he]
    simp [if_pos hnz, List.append_assoc]

/-- Claim C1 witness: truncation at a 1501-character output, pass-through at
a short output, and the embedding in a concrete failure notification. -/
theorem c1_truncation_witness :
    truncateOutput (List.replicate 1501 'a')
      = (List.replicate 1501 'a').take 1500 ++ "... (truncated)".toList
    ∧ truncateOutput "hi".toList = "hi".toList
    ∧ buildResultMsg exCmd bRunFail [] =
        "❌ Command **".toList ++ exCmd.name ++ "** failed (took ".toList
          ++ bRunFail.durationStr ++ ")\n".toList
          ++ codeBlockOpen ++ truncateOutput bRunFail.stderrData ++ codeBlockClose
          ++ "\n📄 Log file: `".toList ++ [] ++ "`".toList :=
  ⟨(c1_truncation (List.replicate 1501 'a') exCmd bRunFail []).1 (by simp),
   (c1_truncation "hi".toList exCmd bRunFail []).2.1 (by decide),
   (c1_truncation [] exCmd bRunFail []).2.2.1 "exit status 1".toList rfl (by decide)⟩

/-- Claim C2: `ExecuteAll` runs the commands strictly in list order — on a
failing head it stops with the failing command's post-state and the wrapped
error, running nothing further; on a successful head it continues with the
remaining list; the entry point's loop always proceeds to the rest of the
list regardless of the head's outcome. -/
theorem c2_sequencing (r : Runner) (ctx : ExecCtx) (eb : GoStr → CmdBehavior) :
    (∀ cmd rest st st' e, Execute r ctx (eb cmd.name) cmd st = (st', some e) →
      ExecuteAll r ctx eb (cmd :: rest) st =
        (st', some ("command '".toList ++ cmd.name ++ "' failed: ".toList ++ e)))
    ∧ (∀ cmd rest st st', Execute r ctx (eb cmd.name) cmd st = (st', none) →
      ExecuteAll r ctx eb (cmd :: rest) st = ExecuteAll r ctx eb rest st')
    ∧ (∀ cmd rest st, mainLoop r ctx eb (cmd :: rest) st
        = mainLoop r ctx eb rest (mainStep r ctx eb cmd st)) := by
  refine ⟨?_, ?_, ?_⟩
  · intro cmd rest st st' e h
    unfold ExecuteAll
    rw [h]
  · intro cmd rest st st' h
    conv_lhs => rw [ExecuteAll]
    rw [h]
  · intro cmd rest st
    rfl

/-- Claim C2 witness: with a failing first command, `ExecuteAll` over a
two-command list returns after the first command with the wrapped error,
while the entry point's loop proceeds to the second command. -/
theorem c2_sequencing_witness :
    ExecuteAll exRunner exCtx (fun _ => bRunFail) [exCmd, dockerEnvCmd] emptyWorld
      = (w1, some ("command '".toList ++ exCmd.name ++ "' failed: ".toList
          ++ "exit status 1".toList))
    ∧ mainLoop exRunner exCtx (fun _ => bRunFail) [exCmd, dockerEnvCmd] emptyWorld
      = mainLoop exRunner exCtx (fun _ => bRunFail) [dockerEnvCmd]
          (mainStep exRunner exCtx (fun _ => bRunFail) exCmd emptyWorld) :=
  ⟨(c2_sequencing exRunner exCtx (fun _ => bRunFail)).1 exCmd [dockerEnvCmd]
      emptyWorld w1 "exit status 1".toList rfl,
   (c2_sequencing exRunner exCtx (fun _ => bRunFail)).2.2 exCmd [dockerEnvCmd] emptyWorld⟩

/-- Claim C3 counterexample: a `docker` command with a configured Docker
host override but extra environment variables: the environment passed to
the spawned subprocess is the process environment plus the extra variables,
and does not contain the `DOCKER_HOST` entry — the claim fails for commands
that also specify extra environment variables. -/
theorem c3_docker_host_counterexample :
    (Execute exRunner exCtx bRunOk dockerEnvCmd emptyWorld).1.spawned.map Spawn.env
      = [some ["PATH=/bin".toList, "FOO=1".toList]]
    ∧ "DOCKER_HOST=tcp://dh:2375".toList ∉ ["PATH=/bin".toList, "FOO=1".toList] := by
  exact ⟨by decide, by decide⟩

/-- Claim C3 (amended): for a `docker` command with a configured Docker host
override, the spawned environment contains `DOCKER_HOST=<override>` when the
command specifies no extra environment variables; when it does specify extra
variables, the environment is replaced by the process environment plus those
variables (losing the injected entry). -/
theorem c3_docker_host_env (r : Runner) (ctx : ExecCtx) (b : CmdBehavior) (cmd : Command)
    (st : World) (hs : b.startNotifyErr = none) (hd : r.dockerHost ≠ [])
    (hc : cmd.command = "docker".toList) :
    (cmd.envVars = [] →
      (Execute r ctx b cmd st).1.spawned = st.spawned ++
        [⟨cmd.command, cmd.args, resolveDir r cmd,
          some (ctx.osEnviron ++ ["DOCKER_HOST=".toList ++ r.dockerHost])⟩]
      ∧ ("DOCKER_HOST=".toList ++ r.dockerHost)
          ∈ ctx.osEnviron ++ ["DOCKER_HOST=".toList ++ r.dockerHost])
    ∧ (0 < cmd.envVars.length →
      (Execute r ctx b cmd st).1.spawned = st.spawned ++
        [⟨cmd.command, cmd.args, resolveDir r cmd, some (ctx.osEnviron ++ cmd.envVars)⟩]) := by
  constructor
  · intro he
    refine ⟨?_, by simp⟩
    rw [Execute_spawned r ctx b cmd st hs, computeSpawnEnv_noVars r ctx.osEnviron cmd hd hc he]
  · intro hv
    rw [Execute_spawned r ctx b cmd st hs, computeSpawnEnv_withVars r ctx.osEnviron cmd hv]

/-- Claim C3 witness: for the docker command without extra environment
variables, the spawned environment is the process environment plus the
`DOCKER_HOST` entry, which it contains. -/
theorem c3_docker_host_env_witness :
    (Execute exRunner exCtx bRunOk exCmd emptyWorld).1.spawned = emptyWorld.spawned ++
      [⟨exCmd.command, exCmd.args, resolveDir exRunner exCmd,
        some (exCtx.osEnviron ++ ["DOCKER_HOST=".toList ++ exRunner.dockerHost])⟩]
    ∧ ("DOCKER_HOST=".toList ++ exRunner.dockerHost)
        ∈ exCtx.osEnviron ++ ["DOCKER_HOST=".toList ++ exRunner.dockerHost] :=
  (c3_docker_host_env exRunner exCtx bRunOk exCmd emptyWorld rfl (by decide) rfl).1 rfl

/-- Claim C5: when the start notification succeeds, the call returns the
original subprocess error (nil on success) whenever the final result
notification is delivered; only when that final send fails does the return
value become the (wrapped) notification error, masking the subprocess
outcome. -/
theorem c5_return_value (r : Runner) (ctx : ExecCtx) (b : CmdBehavior) (cmd : Command)
    (st : World) (hs : b.startNotifyErr = none) :
    (b.resultNotifyErr = none → (Execute r ctx b cmd st).2 = b.runErr)
    ∧ (∀ w, b.resultNotifyErr = some w →
        (Execute r ctx b cmd st).2 = some ("failed to send result message: ".toList ++ w)) :=
  ⟨fun hr => Execute_ret_ok r ctx b cmd st hs hr,
   fun w hr => Execute_ret_notifyFail r ctx b cmd st w hs hr⟩

/-- Claim C5 witness: the subprocess error is returned when the result
notification is delivered, and the notification error masks a clean
subprocess result when the final send fails. -/
theorem c5_return_value_witness :
    (Execute exRunner exCtx bRunFail exCmd emptyWorld).2 = some "exit status 1".toList
    ∧ (Execute exRunner exCtx bNotifyFail exCmd emptyWorld).2
        = some ("failed to send result message: ".toList ++ "503".toList) :=
  ⟨(c5_return_value exRunner exCtx bRunFail exCmd emptyWorld rfl).1 rfl,
   (c5_return_value exRunner exCtx bNotifyFail exCmd emptyWorld rfl).2 "503".toList rfl⟩

/-- Claim C6: when the start notification fails, `Execute` returns the
wrapped error with the world unchanged — no notification recorded, no
subprocess spawned, nothing written to any log. -/
theorem c6_start_failure_aborts (r : Runner) (ctx : ExecCtx) (b : CmdBehavior)
    (cmd : Command) (st : World) (w : GoStr) (hs : b.startNotifyErr = some w) :
    Execute r ctx b cmd st = (st, some ("failed to send start message: ".toList ++ w)) := by
  unfold Execute
  rw [hs]

/-- Claim C6 witness: the start-notification failure at a concrete command
leaves the empty world unchanged. -/
theorem c6_start_failure_aborts_witness :
    Execute exRunner exCtx bStartFail exCmd emptyWorld
      = (emptyWorld, some ("failed to send start message: ".toList ++ "down".toList)) :=
  c6_start_failure_aborts exRunner exCtx bStartFail exCmd emptyWorld "down".toList rfl

/-- Claim C9: the filename component built from any command name contains no
path separator (`/` or `\`) — whatever the case mapping `low` produces, the
replacement chain runs afterwards and eliminates both separators — so, the
date component being the fixed digits-and-dashes format, the path returned
by `GetLogPath` (and opened by `GetLogWriter`, which computes the same
path) is the configured directory followed by a single separator-free
component. -/
theorem c9_log_path_in_dir (low : Char → Char) (baseDir today name : GoStr)
    (ht : '/' ∉ today ∧ '\\' ∉ today) :
    GetLogPath low baseDir today name
      = baseDir ++ "/".toList ++ logFileName low today name
    ∧ GetLogWriterPath low baseDir today name = GetLogPath low baseDir today name
    ∧ '/' ∉ logFileName low today name
    ∧ '\\' ∉ logFileName low today name := by
  refine ⟨rfl, rfl, ?_, ?_⟩
  · unfold logFileName
    simp only [List.mem_append, not_or]
    exact ⟨⟨⟨(sanitizeFilename_no_sep low name).1, by decide⟩, ht.1⟩, by decide⟩
  · unfold logFileName
    simp only [List.mem_append, not_or]
    exact ⟨⟨⟨(sanitizeFilename_no_sep low name).2, by decide⟩, ht.2⟩, by decide⟩

/-- Claim C9 witness: under the sample case mapping, a command name
containing `/`, `\` and spaces still yields a separator-free log file name
under the configured directory. -/
theorem c9_log_path_in_dir_witness :
    GetLogPath sampleLower "/var/logs".toList "2025-01-02".toList "a/b\\ C".toList
      = "/var/logs".toList ++ "/".toList
        ++ logFileName sampleLower "2025-01-02".toList "a/b\\ C".toList
    ∧ '/' ∉ logFileName sampleLower "2025-01-02".toList "a/b\\ C".toList
    ∧ '\\' ∉ logFileName sampleLower "2025-01-02".toList "a/b\\ C".toList :=
  ⟨(c9_log_path_in_dir sampleLower "/var/logs".toList "2025-01-02".toList "a/b\\ C".toList
      ⟨by decide, by decide⟩).1,
   (c9_log_path_in_dir sampleLower "/var/logs".toList "2025-01-02".toList "a/b\\ C".toList
      ⟨by decide, by decide⟩).2.2.1,
   (c9_log_path_in_dir sampleLower "/var/logs".toList "2025-01-02".toList "a/b\\ C".toList
      ⟨by decide, by decide⟩).2.2.2⟩

/-- Claim C10: the log receives exactly the header, the captured output and
a completion footer determined by the subprocess result alone — the success
footer is written exactly when the subprocess returned no error (the two
footers are distinct strings), the log contents do not depend on the result
notification's fate, and a failed final send makes the call return an error
while the log still records success. -/
theorem c10_footer_frame (r : Runner) (ctx : ExecCtx) (b : CmdBehavior) (cmd : Command)
    (st : World) (x : Option GoStr) (hs : b.startNotifyErr = none) :
    (Execute r ctx { b with resultNotifyErr := x } cmd st).1.logs
        = (Execute r ctx b cmd st).1.logs
    ∧ (Execute r ctx b cmd st).1.logs = st.logs ++
        [(GetLogPath ctx.low ctx.logDir ctx.today cmd.name, logHeader cmd (resolveDir r cmd) b.nowStr),
         (GetLogPath ctx.low ctx.logDir ctx.today cmd.name, b.stdoutData ++ b.stderrData),
         (GetLogPath ctx.low ctx.logDir ctx.today cmd.name, logFooter b.runErr)]
    ∧ (∀ e, logFooter (some e) ≠ logFooter none)
    ∧ (b.runErr = none → ∀ w, b.resultNotifyErr = some w →
        (Execute r ctx b cmd st).2 = some ("failed to send result message: ".toList ++ w)
        ∧ (GetLogPath ctx.low ctx.logDir ctx.today cmd.name, logFooter none)
            ∈ (Execute r ctx b cmd st).1.logs) := by
  refine ⟨?_, Execute_logs r ctx b cmd st hs, logFooter_some_ne_none,
    fun hrun w hr => ⟨Execute_ret_notifyFail r ctx b cmd st w hs hr, ?_⟩⟩
  · rw [Execute_logs r ctx b cmd st hs,
      Execute_logs r ctx { b with resultNotifyErr := x } cmd st hs]
  · rw [Execute_logs r ctx b cmd st hs, hrun]
    simp

/-- Claim C10 witness: with a clean subprocess and a failing result
notification, the call errors while the log contains the success footer,
and the log contents equal those of the run whose notification succeeded. -/
theorem c10_footer_frame_witness :
    (Execute exRunner exCtx { bNotifyFail with resultNotifyErr := none } exCmd emptyWorld).1.logs
        = (Execute exRunner exCtx bNotifyFail exCmd emptyWorld).1.logs
    ∧ (Execute exRunner exCtx bNotifyFail exCmd emptyWorld).2
        = some ("failed to send result message: ".toList ++ "503".toList)
    ∧ (GetLogPath exCtx.low exCtx.logDir exCtx.today exCmd.name, logFooter none)
        ∈ (Execute exRunner exCtx bNotifyFail exCmd emptyWorld).1.logs :=
  ⟨(c10_footer_frame exRunner exCtx bNotifyFail exCmd emptyWorld none rfl).1,
   ((c10_footer_frame exRunner exCtx bNotifyFail exCmd emptyWorld none rfl).2.2.2
      rfl "503".toList rfl).1,
   ((c10_footer_frame exRunner exCtx bNotifyFail exCmd emptyWorld none rfl).2.2.2
      rfl "503".toList rfl).2⟩

end Delivr
